import Mathlib

/-!
Verification model of the BeAPI accessible-components repository.

The definitions below are a shallow embedding of the widget code:
`src/src/classes/Accordion.ts` (the TypeScript `Accordion` class) and
`src/src/classes/Toggle.js` (the `Toggle` class).  DOM-visible state
(ARIA attributes, inline `display` styles, keyboard focus, registered
event listeners, pending timers) is represented explicitly; the widget
methods become pure functions on that state.  All models take the
non-animated path (`hasAnimation = false`, the default), in which
open/close write `style.display` synchronously.
-/

namespace A11y

/-- Inline `display` style of a panel element: no inline style at all,
`display: block` (written by `Accordion.open`), or `display: none`
(written by `Accordion.close`). -/
inductive Disp
  | unset
  | block
  | hidden
deriving DecidableEq, Repr

/-- The accordion options the claims exercise, from `Accordion.defaults`
and the `AccordionOptions` interface (Accordion.ts lines 20-33, 163-175).
`forceExpand` is mutable: `init` overwrites it when `closedDefault` is set. -/
structure Opts where
  allowMultiple : Bool
  closedDefault : Bool
  forceExpand : Bool
deriving DecidableEq, Repr

/-- `Accordion.defaults` (Accordion.ts lines 163-175), restricted to the
boolean options modelled here. -/
def accordionDefaults : Opts :=
  { allowMultiple := false, closedDefault := false, forceExpand := true }

/-- Location of the document keyboard focus, as far as one accordion group
can observe it: on this group's trigger number `i`, inside panel `i`
(on its first focusable descendant), or somewhere else. -/
inductive Focus
  | elsewhere
  | onTrigger (i : Nat)
  | inPanel (i : Nat)
deriving DecidableEq, Repr

/-- State of one accordion group of `n` trigger/panel pairs after `init`
has wired trigger `i` to panel `i` (trigger `aria-controls` points at the
panel id, panel `aria-labelledby` points back).

* `exp i` is the value of trigger `i`'s `aria-expanded` attribute;
* `dis i` is panel `i`'s inline display style;
* `activePanel` mirrors the `activePanel` field;
* `focus` is the document focus location and `focusFlag` the instance's
  `this.focus` boolean (set by the per-trigger focus/blur listeners);
* `focusables i` records whether panel `i` contains a focusable element
  (the markup is fixed, so this list never changes);
* `onOpenCount`/`onCloseCount` count the callback invocations. -/
structure AccState where
  opts : Opts
  exp : List Bool
  dis : List Disp
  activePanel : Option Nat
  focus : Focus
  focusFlag : Bool
  focusables : List Bool
  onOpenCount : Nat
  onCloseCount : Nat
deriving DecidableEq, Repr

/-- `Accordion.isClosed` (lines 390-392): the computed display is `none`
exactly when the inline style is `display: none` (the demo markup applies
no stylesheet rule hiding panels). Out-of-range indices report open,
matching `getComputedStyle` never being reached for them. -/
def isClosedAt (s : AccState) (j : Nat) : Bool :=
  s.dis.getD j Disp.unset == Disp.hidden

/-- A panel is visible when its computed display is not `none`. -/
def visibleAt (s : AccState) (j : Nat) : Bool :=
  ! isClosedAt s j

/-- Number of panels of the group whose computed display is not `none`. -/
def visibleCount (s : AccState) : Nat :=
  (List.range s.dis.length).countP (fun j => visibleAt s j)

/-- Number of triggers currently carrying `aria-expanded="true"`; the
value of `el.querySelectorAll('[aria-expanded="true"]').length` in
`_handleButtonClick` (line 501). -/
def expandedCount (s : AccState) : Nat :=
  s.exp.count true

/-- `Accordion.open` (lines 349-371), non-animated path: record the panel
as `activePanel`, set `style.display = 'block'`, and focus the panel's
first focusable descendant when there is one.  (`open` itself never
touches `this.focus`; that flag is only written by the focus/blur
listeners attached to the triggers.) -/
def openPanel (k : Nat) (s : AccState) : AccState :=
  { s with
    activePanel := some k
    dis := s.dis.set k Disp.block
    focus := if s.focusables.getD k false then Focus.inPanel k else s.focus }

/-- `Accordion.close` (lines 379-381), non-animated path:
`panel.style.display = 'none'`. -/
def closePanel (k : Nat) (s : AccState) : AccState :=
  { s with dis := s.dis.set k Disp.hidden }

/-- One iteration of the `forEach` over the group's panels in the
non-`allowMultiple` branch of `_handleButtonClick` (lines 512-524), for
panel `j` when trigger `k` was clicked.  The `trigger` local shadowing
the outer one is `document.getElementById(panelAriaLabelledByAttr)`,
i.e. the CLICKED trigger `k` (panel `k`'s `aria-labelledby` names
trigger `k`), so the `setAttribute('aria-expanded', 'false')` inside the
loop hits trigger `k` on every iteration, not trigger `j`. -/
def closeOthersStep (k : Nat) (s : AccState) (j : Nat) : AccState :=
  if j ≠ k then
    let s1 := { s with exp := s.exp.set k false }
    if ! isClosedAt s1 j then
      { closePanel j s1 with onCloseCount := s1.onCloseCount + 1 }
    else s1
  else s

/-- The whole `forEach` over `el.querySelectorAll(panelSelector)`
(lines 512-524), visiting panels in document order. -/
def closeOthersLoop (k : Nat) : List Nat → AccState → AccState
  | [], s => s
  | j :: js, s => closeOthersLoop k js (closeOthersStep k s j)

/-- `Accordion._handleButtonClick` (lines 480-534) for a click on
trigger `k` of the group, assuming the post-`init` wiring (trigger `k`
has `aria-controls` naming panel `k`, which has `aria-labelledby`
naming trigger `k`, so the early-return guards do not fire). -/
def handleButtonClick (k : Nat) (s : AccState) : AccState :=
  if s.exp.getD k false &&
      (! s.opts.forceExpand ||
        (s.opts.forceExpand && s.opts.allowMultiple && decide (1 < expandedCount s))) then
    { closePanel k { s with exp := s.exp.set k false } with
      onCloseCount := s.onCloseCount + 1 }
  else
    let s1 := if ! s.opts.allowMultiple then closeOthersLoop k (List.range s.dis.length) s else s
    let s2 := { s1 with exp := s1.exp.set k true }
    let s3 := openPanel k s2
    { s3 with onOpenCount := s3.onOpenCount + 1 }

/-- A finite sequence of trigger clicks, applied left to right. -/
def clickSeq (ks : List Nat) (s : AccState) : AccState :=
  ks.foldl (fun s k => handleButtonClick k s) s

/-- Trigger loop of `Accordion.init` (lines 259-275): trigger `index`
gets `aria-expanded = (index === 0 ? 'true' : 'false')`; here `index` is
incremented at the end of every iteration. -/
def initTriggerLoop (n : Nat) : List Bool :=
  (List.range n).map (fun index => decide (index = 0))

/-- One iteration of the panel loop of `Accordion.init` (lines 280-296)
for panel `j`, with the loop's `index` variable passed in explicitly:
hide the panel when `index !== 0`, and under `closedDefault` set
`triggers[index]`'s `aria-expanded` to `'false'` and close the panel. -/
def initPanelStep (closedDefault : Bool) (index : Nat) (j : Nat) (s : AccState) : AccState :=
  let s1 := if index ≠ 0 then closePanel j s else s
  if closedDefault then
    { closePanel j s1 with exp := s1.exp.set index false }
  else s1

/-- Panel loop of `Accordion.init` (lines 278-297).  The source resets
`index` to 0 before this loop and, unlike the trigger loop, never
increments it inside the loop body, so every iteration runs with the
same `index`; the recursion below passes `index` through unchanged to
mirror that. -/
def initPanelLoop (closedDefault : Bool) (index : Nat) : List Nat → AccState → AccState
  | [], s => s
  | j :: js, s => initPanelLoop closedDefault index js (initPanelStep closedDefault index j s)

/-- `Accordion.init` (lines 218-297) on a group of `n` trigger/panel
pairs in fresh markup (no inline styles, no ARIA attributes yet):
`closedDefault` forces `forceExpand` off (lines 252-254), the trigger
loop sets the `aria-expanded` attributes, and the panel loop runs with
its `index` variable at 0. -/
def initState (o : Opts) (focusables : List Bool) (n : Nat) : AccState :=
  let opts1 : Opts := if o.closedDefault then { o with forceExpand := false } else o
  let s0 : AccState :=
    { opts := opts1
      exp := initTriggerLoop n
      dis := List.replicate n Disp.unset
      activePanel := none
      focus := Focus.elsewhere
      focusFlag := false
      focusables := focusables
      onOpenCount := 0
      onCloseCount := 0 }
  initPanelLoop o.closedDefault 0 (List.range n) s0

/-- The group state used below as a concrete input: two trigger/panel
pairs with the default options (`allowMultiple = false`,
`forceExpand = true`, `closedDefault = false`) and no focusable content
inside the panels, freshly initialized and then with trigger 0 clicked
once, which closes panel 1 and opens panel 0.  Afterwards exactly one
trigger is expanded and exactly one panel is visible. -/
def cleanOpenState : AccState :=
  handleButtonClick 0 (initState accordionDefaults [false, false] 2)

/-! Document-level keydown listeners of one accordion group.

`init` (line 256) runs `document.addEventListener('keydown', this._handleKeydown)`
with the UNBOUND prototype method (the bound copy created in the
constructor is the differently named `this.handleKeydown`), and
`destroy` (line 337) runs `document.addEventListener('keydown',
instance.handleKeydown)` — `addEventListener`, not `removeEventListener`
— with the bound copy.  Both function objects are stable across calls
(prototype method, respectively per-instance bound copy), and the DOM
deduplicates identical (type, listener) registrations. -/

/-- The two distinct function objects one group can register as a
document keydown listener. -/
inductive DocListener
  | unboundHandleKeydown
  | boundHandleKeydown
deriving DecidableEq, Repr

/-- DOM `addEventListener`: registering a listener already present for
the same event type is a no-op. -/
def addKeydownListener (l : DocListener) (ls : List DocListener) : List DocListener :=
  if l ∈ ls then ls else ls ++ [l]

/-- Effect of `Accordion.init` (line 256) on the document's keydown
listener list: it adds the unbound `_handleKeydown`. -/
def accInitKeydown (ls : List DocListener) : List DocListener :=
  addKeydownListener DocListener.unboundHandleKeydown ls

/-- Effect of `Accordion.destroy` (line 337) on the document's keydown
listener list: the source calls `document.addEventListener('keydown',
instance.handleKeydown)`, so destroy ADDS the bound copy instead of
removing anything. -/
def accDestroyKeydown (ls : List DocListener) : List DocListener :=
  addKeydownListener DocListener.boundHandleKeydown ls

/-! Keyboard roving (Accordion.ts lines 400-471 and 563-586). -/

/-- The `e.code` values `_handleKeydown` dispatches on. -/
inductive Key
  | arrowUp
  | arrowDown
  | home
  | endKey
  | other
deriving DecidableEq, Repr

/-- `Accordion._focusPreviousTab` (lines 400-416): if the active element
is one of this group's triggers, focus the previous trigger, wrapping
from the first to the last; otherwise do nothing (the `classList`
guard fails). -/
def _focusPreviousTab (s : AccState) : AccState :=
  match s.focus with
  | Focus.onTrigger i =>
      { s with focus := Focus.onTrigger (if i = 0 then s.exp.length - 1 else i - 1) }
  | _ => s

/-- `Accordion._focusNextTab` (lines 424-440): focus the next trigger,
wrapping from the last to the first. -/
def _focusNextTab (s : AccState) : AccState :=
  match s.focus with
  | Focus.onTrigger i =>
      { s with focus := Focus.onTrigger (if i = s.exp.length - 1 then 0 else i + 1) }
  | _ => s

/-- `Accordion._focusFirstTab` (lines 448-454): focus trigger 0 when the
group has any trigger. -/
def _focusFirstTab (s : AccState) : AccState :=
  if s.exp.length ≠ 0 then { s with focus := Focus.onTrigger 0 } else s

/-- `Accordion._focusLastTab` (lines 462-471): focus the last trigger
when the group has any trigger. -/
def _focusLastTab (s : AccState) : AccState :=
  if s.exp.length ≠ 0 then { s with focus := Focus.onTrigger (s.exp.length - 1) } else s

/-- Body of `Accordion._handleKeydown` (lines 563-586), parameterized by
the value the guard `if (!this.focus) return` reads: `thisFocus` is the
`focus` property of whatever object the handler runs with as `this`
(`none` models a JS `undefined`).  The returned boolean records whether
`e.preventDefault()` was called. -/
def handleKeydownWith (thisFocus : Option Bool) (key : Key) (s : AccState) : AccState × Bool :=
  if thisFocus = some true then
    match key with
    | Key.arrowUp => (_focusPreviousTab s, true)
    | Key.arrowDown => (_focusNextTab s, true)
    | Key.home => (_focusFirstTab s, true)
    | Key.endKey => (_focusLastTab s, true)
    | Key.other => (s, false)
  else (s, false)

/-- The keydown listener the way `init` actually attached it
(line 256): the unbound prototype method, so at dispatch time `this` is
`document`, whose `focus` property is `undefined` — the guard reads a
falsy value no matter what the instance's `focus` flag is. -/
def dispatchDocumentKeydown (key : Key) (s : AccState) : AccState × Bool :=
  handleKeydownWith none key s

/-- The same body invoked with the instance as `this` (the bound copy
`this.handleKeydown` created in the constructor, which `init` does NOT
attach): the guard reads the instance's `focus` flag. -/
def dispatchBoundKeydown (key : Key) (s : AccState) : AccState × Bool :=
  handleKeydownWith (some s.focusFlag) key s

/-! Breakpoint crossing (Accordion.ts lines 236-250 and 594-613),
for a configured media query `(min-width: 768px)` — generally any
`min-width` query whose text parses to the numeric breakpoint `bp` —
together with an `onReachBreakpoint` callback.  A `MediaQueryList` for
`(min-width: bp)` matches exactly when the viewport width is at least
`bp`. -/

/-- The `hasReachBreakpoint` tri-state field (`'above' | 'below' | null`
before first classification). -/
inductive Side
  | above
  | below
deriving DecidableEq, Repr

/-- Resize-relevant state of a group with a `min-width` media query:
`hasReachBreakpoint`, the `active` flag, and the list of `matches`
booleans passed to `onReachBreakpoint` so far. -/
structure RState where
  hasReachBreakpoint : Option Side
  active : Bool
  breakpointCalls : List Bool
deriving DecidableEq, Repr

/-- `mediaQuery.matches` for `(min-width: bp)` at viewport width `w`. -/
def mqMinMatches (bp w : Nat) : Bool :=
  decide (bp ≤ w)

/-- The part of `Accordion.init` (lines 234-250) the resize model
tracks: set `active`, and classify `hasReachBreakpoint` for a
`min-width` query as `window.innerWidth > parseInt(minWidth) ? 'above'
: 'below'` (line 240; note the strict comparison). -/
def resizeInit (bp w : Nat) (s : RState) : RState :=
  { s with
    active := true
    hasReachBreakpoint := some (if bp < w then Side.above else Side.below) }

/-- `Accordion._handleResize` (lines 594-613) at viewport width `w` for
a group configured with a `(min-width: bp)` query and an
`onReachBreakpoint` callback (so the guards of the first disjunct
hold whenever the crossing test does): fire the callback on a
crossing, flip `hasReachBreakpoint`, then re-evaluate init/destroy —
`init` when inactive and the query matches (then return), destroy
(which clears `active`) when active and the query stopped matching. -/
def _handleResize (bp w : Nat) (s : RState) : RState :=
  let crossedDown := s.hasReachBreakpoint = some Side.above ∧ w ≤ bp
  let crossedUp := s.hasReachBreakpoint = some Side.below ∧ bp < w
  let s1 :=
    if crossedDown ∨ crossedUp then
      { s with
        hasReachBreakpoint :=
          some (if s.hasReachBreakpoint = some Side.above then Side.below else Side.above)
        breakpointCalls := s.breakpointCalls ++ [mqMinMatches bp w] }
    else s
  if s1.active = false ∧ mqMinMatches bp w then resizeInit bp w s1
  else if s1.active = true ∧ mqMinMatches bp w = false then { s1 with active := false }
  else s1

/-- A burst of throttled resize notifications, applied left to right. -/
def resizeSeq (bp : Nat) (ws : List Nat) (s : RState) : RState :=
  ws.foldl (fun s w => _handleResize bp w s) s

/-- State of the group right after construction at viewport width 800:
the constructor (line 209) invokes `handleResize` once, which, the
query matching, runs `init` and classifies `hasReachBreakpoint`. -/
def constructedAt800 : RState :=
  _handleResize 768 800 { hasReachBreakpoint := none, active := false, breakpointCalls := [] }

/-! Generated identifiers (Accordion.ts lines 259-296).

A generated id is the string `pre ++ "-" ++ toString i` where `pre` is
`prefixId ++ "-" ++ id` for triggers and `prefixId ++ "-" ++ id ++
"-panel"` for panels (`id` being the group's random token).  Because
`toString i` is a nonempty digit string containing no dash, the map
from the pair `(pre, i)` to that string is injective, so the document's
id collection is modelled as a list of such pairs; pre-existing
handwritten ids are arbitrary pairs. -/

/-- An id in the document, as the pair of its dash-prefix and its
trailing number. -/
abbrev GenId := String × Nat

/-- Largest trailing number among the ids in the document (used only to
bound the collision-probing loop). -/
def maxSnd (doc : List GenId) : Nat :=
  doc.foldr (fun x m => max x.2 m) 0

/-- The probing `while` loop (lines 261-263 and 282-284): starting at
candidate `i`, keep incrementing while `document.getElementById` finds
the candidate taken, and return the first free index. -/
def probe (doc : List GenId) (pre : String) (i : Nat) : Nat :=
  if (pre, i) ∈ doc then probe doc pre (i + 1) else i
termination_by maxSnd doc + 1 - i
decreasing_by
  rename_i h
  have hle : i ≤ maxSnd doc := by
    induction doc with
    | nil => cases h
    | cons x xs ih =>
        rcases List.mem_cons.mp h with h1 | h2
        · simp [maxSnd, ← h1]
        · have hx := ih h2
          simp only [maxSnd] at hx ⊢
          simp only [List.foldr_cons]
          omega
  omega

/-- Trigger loop of `Accordion.init` (lines 259-275) restricted to id
assignment: for `n` triggers, iteration `index` probes from
`index + 1` and registers the resulting id in the document. -/
def triggerIdLoop (pre : String) : Nat → Nat → List GenId → List GenId
  | 0, _, doc => doc
  | n + 1, index, doc =>
      triggerIdLoop pre n (index + 1) ((pre, probe doc pre (index + 1)) :: doc)

/-- Panel loop of `Accordion.init` (lines 278-297) restricted to id
assignment: the loop's `index` variable is stuck at 0 (it is never
incremented), so every iteration probes from 1. -/
def panelIdLoop (pre : String) : Nat → List GenId → List GenId
  | 0, doc => doc
  | n + 1, doc => panelIdLoop pre n ((pre, probe doc pre 1) :: doc)

/-- All ids one `init` adds to the document for a group of `n`
trigger/panel pairs: the trigger ids (prefix `prefixId-id`) then the
panel ids (prefix `prefixId-id-panel`). -/
def accordionInitIds (preT preP : String) (n : Nat) (doc : List GenId) : List GenId :=
  panelIdLoop preP n (triggerIdLoop preT n 0 doc)

/-! Instance registry.

The `AbstractDomElement` base class is imported by both widgets but its
source file is not part of this repository snapshot, so the registry is
modelled from the specification (sections 3 and 4.2). -/

/-- Caller-supplied option overrides: each recognized boolean option may
be present or absent. -/
structure PartialOpts where
  allowMultiple : Option Bool
  closedDefault : Option Bool
  forceExpand : Option Bool
deriving DecidableEq, Repr

/-- Merging caller overrides over the family defaults, as in the spread
`{ ...Accordion.defaults, ...options }` of the `Accordion` constructor
(lines 184-187). -/
def mergeOpts (defaults : Opts) (o : PartialOpts) : Opts :=
  { allowMultiple := o.allowMultiple.getD defaults.allowMultiple
    closedDefault := o.closedDefault.getD defaults.closedDefault
    forceExpand := o.forceExpand.getD defaults.forceExpand }

/-- Modelled from the spec: a registry entry's instance, identified by a
creation token (standing for JS reference identity) together with its
resolved configuration.  The `AbstractDomElement` class that owns the
registry is missing from the repository snapshot; spec section 3 gives
the entry shape. -/
structure RegInstance where
  instanceId : Nat
  resolvedOpts : Opts
deriving DecidableEq, Repr

/-- Modelled from the spec: the per-DOM-node singleton registry of
section 3, mapping node identities (modelled as numbers) to instances. -/
abbrev Registry := List (Nat × RegInstance)

/-- Modelled from the spec: `getInstance` (section 4.2), a pure lookup
with no construction side effect. -/
def getInstance (node : Nat) (reg : Registry) : Option RegInstance :=
  (reg.find? (fun e => e.1 == node)).map Prod.snd

/-- Modelled from the spec: `construct(node, options)` (section 4.2) —
return the existing instance for `node` if one exists, ignoring the
newly supplied options; otherwise create a fresh instance whose
resolved configuration merges `options` over the family defaults and
register it. -/
def construct (node : Nat) (o : PartialOpts) (reg : Registry) : RegInstance × Registry :=
  match getInstance node reg with
  | some inst => (inst, reg)
  | none =>
      let inst : RegInstance := { instanceId := reg.length, resolvedOpts := mergeOpts accordionDefaults o }
      (inst, (node, inst) :: reg)

/-! Toggle listeners (Toggle.js).

`init` (lines 42-85), when the target resolves, attaches
`this.handleClick` (bound once in the constructor, a stable reference)
to the trigger's click event; when `onClick` is configured it
additionally attaches `onClick.bind(this)` — a FRESH function object;
when `closeOnBlur` is set it attaches `this.handleBlur`; when
`closeOnEscPress` is set, `_closeOnEscPress` (lines 257-272) adds an
anonymous arrow function as a `window` keydown listener.  `destroy`
(lines 92-104) removes, when `onClick` is configured, only the raw
`this._settings.onClick` (never attached — the attached object is the
bound copy) and otherwise removes `this.handleClick` and
`this.handleBlur`; no code path ever removes the Escape listener. -/

/-- The listener references a Toggle scenario can involve. -/
inductive ToggleListener
  | clickHandleClick
  | clickOnClickBound
  | clickOnClickRaw
  | blurHandleBlur
  | windowKeydownEscape
deriving DecidableEq, Repr

/-- The Toggle settings that decide which listeners init attaches:
whether an `onClick` callback is configured, `closeOnBlur`, and
`closeOnEscPress` (target assumed resolvable). -/
structure ToggleSettings where
  onClick : Bool
  closeOnBlur : Bool
  closeOnEscPress : Bool
deriving DecidableEq, Repr

/-- DOM `addEventListener` (deduplicating identical references). -/
def addToggleListener (l : ToggleListener) (ls : List ToggleListener) : List ToggleListener :=
  if l ∈ ls then ls else ls ++ [l]

/-- DOM `removeEventListener`: removes the exact reference if attached,
otherwise a no-op. -/
def removeToggleListener (l : ToggleListener) (ls : List ToggleListener) : List ToggleListener :=
  ls.filter (fun x => x ≠ l)

/-- Listener effect of `Toggle.init` (lines 42-85) with a resolvable
target. -/
def toggleInit (st : ToggleSettings) (ls : List ToggleListener) : List ToggleListener :=
  let ls := addToggleListener ToggleListener.clickHandleClick ls
  let ls := if st.onClick then addToggleListener ToggleListener.clickOnClickBound ls else ls
  let ls := if st.closeOnBlur then addToggleListener ToggleListener.blurHandleBlur ls else ls
  if st.closeOnEscPress then addToggleListener ToggleListener.windowKeydownEscape ls else ls

/-- Listener effect of `Toggle.destroy` (lines 92-104): when `onClick`
is configured it removes only the raw callback (skipping `handleClick`
and `handleBlur` entirely), otherwise it removes `handleClick` and
`handleBlur`; the Escape listener is never removed. -/
def toggleDestroy (st : ToggleSettings) (ls : List ToggleListener) : List ToggleListener :=
  if st.onClick then removeToggleListener ToggleListener.clickOnClickRaw ls
  else removeToggleListener ToggleListener.blurHandleBlur
    (removeToggleListener ToggleListener.clickHandleClick ls)

/-! Toggle blur-close (Toggle.js lines 68-70 and 192-197). -/

/-- The delay `handleBlur` passes to `window.setTimeout`. -/
def blurDelayMs : Nat := 200

/-- Attribute state of a Toggle (target's `aria-hidden`, trigger's
`aria-expanded`; `none` = attribute absent) together with the pending
`setTimeout` delays. -/
structure TogState where
  ariaHidden : Option Bool
  ariaExpanded : Option Bool
  timers : List Nat
deriving DecidableEq, Repr

/-- `Toggle.handleBlur` (lines 192-197): schedule a callback after 200
milliseconds.  Nothing records or cancels the timer handle. -/
def togHandleBlur (s : TogState) : TogState :=
  { s with timers := s.timers ++ [blurDelayMs] }

/-- The scheduled callback firing: it sets the target's `aria-hidden` to
`'true'` and the trigger's `aria-expanded` to `'false'` without
re-checking any state. -/
def blurTimerFire (s : TogState) : TogState :=
  match s.timers with
  | [] => s
  | _ :: rest => { ariaHidden := some true, ariaExpanded := some false, timers := rest }

/-- `Toggle.open` (lines 131-145), attribute part: `aria-hidden` false,
`aria-expanded` true.  It does not touch the pending timers. -/
def togOpen (s : TogState) : TogState :=
  { s with ariaHidden := some false, ariaExpanded := some true }

/-- `Toggle.close` (lines 152-166), attribute part. -/
def togClose (s : TogState) : TogState :=
  { s with ariaHidden := some true, ariaExpanded := some false }

/-- The operations available while a blur timer is pending.  Focus
returning into the target fires no Toggle code at all, so it has no
state effect and needs no constructor. -/
inductive TogAction
  | openA
  | closeA
deriving DecidableEq, Repr

/-- Interpret one intervening operation. -/
def applyTog (a : TogAction) (s : TogState) : TogState :=
  match a with
  | TogAction.openA => togOpen s
  | TogAction.closeA => togClose s

/-- Interpret a sequence of intervening operations, left to right. -/
def applyTogs (acts : List TogAction) (s : TogState) : TogState :=
  acts.foldl (fun s a => applyTog a s) s

/-- A concrete active group of four trigger/panel pairs (panel 0 open,
default options, no focusable panel content) with the keyboard focus on
trigger `i` and the instance's `focus` flag raised accordingly. -/
def fourTriggers (i : Nat) : AccState :=
  { opts := accordionDefaults
    exp := [true, false, false, false]
    dis := [Disp.block, Disp.hidden, Disp.hidden, Disp.hidden]
    activePanel := some 0
    focus := Focus.onTrigger i
    focusFlag := true
    focusables := [false, false, false, false]
    onOpenCount := 0
    onCloseCount := 0 }

/-! Theorems.  The claim theorems are interspersed with the helper
lemmas they rest on. -/

/-- Setting an entry of a list to the value it already holds leaves the
list unchanged. -/
theorem list_set_self {α : Type} : ∀ (l : List α) (k : Nat) (a : α),
    l[k]? = some a → l.set k a = l
  | [], _, _, h => by simp at h
  | b :: l, 0, a, h => by
      simp only [List.getElem?_cons_zero, Option.some.injEq] at h
      simp [h]
  | b :: l, k + 1, a, h => by
      simp only [List.getElem?_cons_succ] at h
      simp [list_set_self l k a h]

/-- When every panel the close-others loop visits (other than the
clicked one) is already closed, the loop leaves the whole state intact
except that it may rewrite the clicked trigger's `aria-expanded` to
`false` (which the click handler overwrites with `true` right after the
loop). -/
theorem closeOthersLoop_all_closed (k : Nat) :
    ∀ (l : List Nat) (s : AccState),
    (∀ j ∈ l, j ≠ k → isClosedAt s j = true) →
    closeOthersLoop k l s = s ∨
      closeOthersLoop k l s = { s with exp := s.exp.set k false }
  | [], s, _ => Or.inl rfl
  | j :: js, s, h => by
      rcases eq_or_ne j k with heq | hne
      · have hstep : closeOthersStep k s j = s := by simp [closeOthersStep, heq]
        rw [closeOthersLoop, hstep]
        exact closeOthersLoop_all_closed k js s (fun j' hj' => h j' (List.mem_cons_of_mem _ hj'))
      · have hcl : isClosedAt s j = true := h j (List.mem_cons_self j js) hne
        have hstep : closeOthersStep k s j = { s with exp := s.exp.set k false } := by
          simp [closeOthersStep, hne, isClosedAt] at hcl ⊢
          simp [hcl]
        rw [closeOthersLoop, hstep]
        have hrec := closeOthersLoop_all_closed k js { s with exp := s.exp.set k false }
          (fun j' hj' hne' => by
            have := h j' (List.mem_cons_of_mem _ hj') hne'
            simpa [isClosedAt] using this)
        rcases hrec with h1 | h1
        · exact Or.inr h1
        · right
          rw [h1]
          simp [List.set_set]

/-- C1: the claim asserts that in every group with
`allowMultiple = false` at most one panel is visible after `init`
followed by any finite click sequence, the empty one included.  The
code refutes it at the empty sequence: for a freshly initialized group
of two pairs with the default options, BOTH panels are visible, because
the panel loop of `init` never increments its `index` variable, so the
`index !== 0` branch that should hide the non-first panels never runs. -/
theorem C1_init_leaves_both_panels_visible :
    visibleCount (clickSeq [] (initState accordionDefaults [false, false] 2)) = 2 := by decide

/-- C4: the claim describes the initial layout established by `init`;
its expanded-state part holds (trigger 0 `true`, trigger 1 `false`),
but its panel part fails on the code: the non-first panel is NOT hidden
after `init` (same dead `index !== 0` branch as in C1). -/
theorem C4_second_panel_not_hidden_after_init :
    (initState accordionDefaults [false, false] 2).exp = [true, false] ∧
    visibleAt (initState accordionDefaults [false, false] 2) 1 = true := by decide

/-- The `closedDefault` part of the initial layout does hold on the
code: all triggers end up unexpanded, all panels closed, and
`forceExpand` is forced off. -/
theorem init_closedDefault_layout :
    (initState { accordionDefaults with closedDefault := true } [false, false] 2).exp
        = [false, false] ∧
    (initState { accordionDefaults with closedDefault := true } [false, false] 2).dis
        = [Disp.hidden, Disp.hidden] ∧
    (initState { accordionDefaults with closedDefault := true } [false, false] 2).opts.forceExpand
        = false := by decide

/-- C2, counterexample: in the state reached by `init` plus one click on
trigger 0 — where exactly one trigger is expanded and exactly one panel
is visible — clicking that sole open trigger again is NOT a no-op: the
click handler falls into its open branch and invokes the `onOpen`
callback, which the claim says must not happen. -/
theorem C2_counterexample_onOpen_fires :
    expandedCount cleanOpenState = 1 ∧
    visibleCount cleanOpenState = 1 ∧
    cleanOpenState.exp[0]? = some true ∧
    (handleButtonClick 0 cleanOpenState).onOpenCount = cleanOpenState.onOpenCount + 1 := by decide

/-- C2, amended: with `forceExpand = true` and `allowMultiple = false`,
clicking the sole expanded trigger (all other panels closed, its own
panel open) cannot close its panel: every trigger's expanded-state and
every panel's visibility are unchanged and no `onClose` fires — but the
open path re-runs, so `onOpen` is invoked once more, `activePanel` is
set to the clicked pair, and focus moves to the panel's first focusable
descendant when it has one. -/
theorem C2_sole_open_trigger_click_reopens (s : AccState) (k : Nat)
    (hm : s.opts.allowMultiple = false) (hf : s.opts.forceExpand = true)
    (hkd : k < s.dis.length)
    (hexp : s.exp[k]? = some true)
    (hopen : isClosedAt s k = false)
    (hothers : ∀ j, j < s.dis.length → j ≠ k → isClosedAt s j = true) :
    (handleButtonClick k s).exp = s.exp ∧
    (∀ j, visibleAt (handleButtonClick k s) j = visibleAt s j) ∧
    (handleButtonClick k s).onCloseCount = s.onCloseCount ∧
    (handleButtonClick k s).onOpenCount = s.onOpenCount + 1 ∧
    (handleButtonClick k s).activePanel = some k ∧
    (handleButtonClick k s).focus =
      (if s.focusables.getD k false then Focus.inPanel k else s.focus) ∧
    (handleButtonClick k s).focusFlag = s.focusFlag ∧
    (handleButtonClick k s).opts = s.opts := by
  have hgetD : s.exp.getD k false = true := by
    rw [List.getD_eq_getElem?_getD, hexp]
    rfl
  have hcond : (s.exp.getD k false &&
      (! s.opts.forceExpand ||
        (s.opts.forceExpand && s.opts.allowMultiple && decide (1 < expandedCount s)))) = false := by
    rw [hgetD, hf, hm]
    simp
  have hloop := closeOthersLoop_all_closed k (List.range s.dis.length) s
    (fun j hj hne => hothers j (List.mem_range.mp hj) hne)
  have hset : s.exp.set k true = s.exp := list_set_self s.exp k true hexp
  have hbody : handleButtonClick k s =
      { openPanel k s with onOpenCount := (openPanel k s).onOpenCount + 1 } := by
    rcases hloop with h1 | h1 <;>
      simp [handleButtonClick, hcond, hm, h1, List.set_set, hset, openPanel] <;>
      exact fun _ => hf
  rw [hbody]
  refine ⟨rfl, ?_, rfl, rfl, rfl, rfl, rfl, rfl⟩
  intro j
  rcases eq_or_ne j k with heq | hne
  · subst heq
    simp only [visibleAt, isClosedAt, openPanel]
    rw [List.getD_eq_getElem?_getD, List.getElem?_set_eq_of_lt _ hkd]
    simp only [Option.getD_some]
    have h2 : (s.dis.getD j Disp.unset == Disp.hidden) = false := hopen
    simp at h2 ⊢
    simpa using h2
  · simp only [visibleAt, isClosedAt, openPanel]
    rw [List.getD_eq_getElem?_getD, List.getElem?_set_ne (fun h => hne h.symm),
      ← List.getD_eq_getElem?_getD]

/-- C2, witness: the amended theorem applied to the concrete clean
state of `C2_counterexample_onOpen_fires`. -/
theorem C2_sole_open_trigger_click_reopens_witness :
    (cleanOpenState.opts.allowMultiple = false ∧
      cleanOpenState.opts.forceExpand = true ∧
      0 < cleanOpenState.dis.length ∧
      cleanOpenState.exp[0]? = some true ∧
      isClosedAt cleanOpenState 0 = false ∧
      (∀ j, j < cleanOpenState.dis.length → j ≠ 0 → isClosedAt cleanOpenState j = true)) ∧
    ((handleButtonClick 0 cleanOpenState).exp = cleanOpenState.exp ∧
      (∀ j, visibleAt (handleButtonClick 0 cleanOpenState) j = visibleAt cleanOpenState j) ∧
      (handleButtonClick 0 cleanOpenState).onCloseCount = cleanOpenState.onCloseCount ∧
      (handleButtonClick 0 cleanOpenState).onOpenCount = cleanOpenState.onOpenCount + 1 ∧
      (handleButtonClick 0 cleanOpenState).activePanel = some 0 ∧
      (handleButtonClick 0 cleanOpenState).focus =
        (if cleanOpenState.focusables.getD 0 false then Focus.inPanel 0
          else cleanOpenState.focus) ∧
      (handleButtonClick 0 cleanOpenState).focusFlag = cleanOpenState.focusFlag ∧
      (handleButtonClick 0 cleanOpenState).opts = cleanOpenState.opts) :=
  ⟨⟨by decide, by decide, by decide, by decide, by decide, by decide⟩,
    C2_sole_open_trigger_click_reopens cleanOpenState 0 (by decide) (by decide) (by decide)
      (by decide) (by decide) (by decide)⟩

/-- C3: the claim asserts that after `init(); destroy(); init()` exactly
one document-level keydown listener of the group is attached.  The code
refutes it: `destroy` calls `document.addEventListener` instead of
`removeEventListener`, so the sequence leaves TWO listeners attached —
the unbound prototype method `init` registers (twice, deduplicated by
the DOM) and the bound copy `destroy` registers. -/
theorem C3_destroy_adds_second_keydown_listener :
    accInitKeydown (accDestroyKeydown (accInitKeydown [])) =
      [DocListener.unboundHandleKeydown, DocListener.boundHandleKeydown] ∧
    (accInitKeydown (accDestroyKeydown (accInitKeydown []))).length = 2 := by decide

/-- C5: constructing a widget a second time on the same node yields the
instance created by the first construction, and the second call's
option overrides do not alter the first instance's resolved
configuration (spec-modelled registry; `AbstractDomElement` is not part
of the repository snapshot). -/
theorem C5_second_construct_returns_first_instance (node : Nat) (o1 o2 : PartialOpts)
    (reg : Registry) (h : getInstance node reg = none) :
    construct node o2 (construct node o1 reg).2 =
      ((construct node o1 reg).1, (construct node o1 reg).2) ∧
    (construct node o2 (construct node o1 reg).2).1.resolvedOpts =
      mergeOpts accordionDefaults o1 := by
  have h1 : construct node o1 reg =
      ({ instanceId := reg.length, resolvedOpts := mergeOpts accordionDefaults o1 },
        (node, { instanceId := reg.length, resolvedOpts := mergeOpts accordionDefaults o1 })
          :: reg) := by
    rw [construct, h]
  have h2 : getInstance node
      ((node, ({ instanceId := reg.length, resolvedOpts := mergeOpts accordionDefaults o1 }
        : RegInstance)) :: reg) =
      some { instanceId := reg.length, resolvedOpts := mergeOpts accordionDefaults o1 } := by
    simp [getInstance]
  rw [h1]
  constructor
  · rw [construct, h2]
  · rw [construct, h2]

/-- C5, witness: two constructions on node 0 against the empty registry,
with different option overrides. -/
theorem C5_second_construct_returns_first_instance_witness :
    getInstance 0 ([] : Registry) = none ∧
    (construct 0 ⟨none, none, some false⟩
        (construct 0 ⟨some true, none, none⟩ ([] : Registry)).2 =
      ((construct 0 ⟨some true, none, none⟩ ([] : Registry)).1,
        (construct 0 ⟨some true, none, none⟩ ([] : Registry)).2) ∧
    (construct 0 ⟨none, none, some false⟩
        (construct 0 ⟨some true, none, none⟩ ([] : Registry)).2).1.resolvedOpts =
      mergeOpts accordionDefaults ⟨some true, none, none⟩) :=
  ⟨by decide, C5_second_construct_returns_first_instance 0 ⟨some true, none, none⟩
    ⟨none, none, some false⟩ [] (by decide)⟩

/-- C6: for a `(min-width: 768px)` query with an `onReachBreakpoint`
callback, starting from the group constructed at viewport width 800,
the resize sequence 800→900→1000 fires the callback zero times, and the
sequence 800→700 fires it exactly once, with `matches = false`. -/
theorem C6_breakpoint_callback_once_per_crossing :
    (resizeSeq 768 [900, 1000] constructedAt800).breakpointCalls = [] ∧
    (resizeSeq 768 [700] constructedAt800).breakpointCalls = [false] := by decide

/-- C7: the claim asserts the keydown moves (ArrowDown 2→3, 3→0,
ArrowUp 0→3, Home→0, End→3, all with `preventDefault`).  The code
refutes them all: `init` attaches the UNBOUND prototype method as the
document keydown listener, so at dispatch `this` is the document, whose
`focus` property is `undefined`, and the handler returns before doing
anything — here ArrowDown with focus on trigger 2 of 4 moves nothing
and calls no `preventDefault`, although the instance's own focus flag
is raised. -/
theorem C7_document_keydown_dispatch_is_inert :
    dispatchDocumentKeydown Key.arrowDown (fourTriggers 2) = (fourTriggers 2, false) ∧
    (fourTriggers 2).focusFlag = true := by decide

/-- The roving logic itself is the one the claim describes: invoked with
the instance as `this` (the bound copy the constructor prepared but
`init` fails to attach), the five moves all hold, `preventDefault` is
called, and no panel opens or closes. -/
theorem bound_keydown_roving_would_match_spec :
    (dispatchBoundKeydown Key.arrowDown (fourTriggers 2)).1.focus = Focus.onTrigger 3 ∧
    (dispatchBoundKeydown Key.arrowDown (fourTriggers 3)).1.focus = Focus.onTrigger 0 ∧
    (dispatchBoundKeydown Key.arrowUp (fourTriggers 0)).1.focus = Focus.onTrigger 3 ∧
    (dispatchBoundKeydown Key.home (fourTriggers 2)).1.focus = Focus.onTrigger 0 ∧
    (dispatchBoundKeydown Key.endKey (fourTriggers 1)).1.focus = Focus.onTrigger 3 ∧
    (dispatchBoundKeydown Key.arrowDown (fourTriggers 2)).2 = true ∧
    (dispatchBoundKeydown Key.arrowDown (fourTriggers 2)).1.dis = (fourTriggers 2).dis ∧
    (dispatchBoundKeydown Key.arrowDown (fourTriggers 2)).1.exp = (fourTriggers 2).exp := by
  decide

/-- The collision-probing loop returns an index whose id is free in the
document. -/
theorem probe_not_mem (doc : List GenId) (pre : String) (i : Nat) :
    (pre, probe doc pre i) ∉ doc := by
  induction i using probe.induct doc pre with
  | case1 i hmem ih =>
      rw [probe, if_pos hmem]
      exact ih
  | case2 i hmem =>
      rw [probe, if_neg hmem]
      exact hmem

/-- The trigger-id loop preserves document-wide id uniqueness. -/
theorem triggerIdLoop_nodup (pre : String) :
    ∀ (n index : Nat) (doc : List GenId), doc.Nodup → (triggerIdLoop pre n index doc).Nodup
  | 0, _, _, h => h
  | n + 1, index, doc, h =>
      triggerIdLoop_nodup pre n (index + 1) _
        (List.nodup_cons.mpr ⟨probe_not_mem doc pre (index + 1), h⟩)

/-- The panel-id loop preserves document-wide id uniqueness. -/
theorem panelIdLoop_nodup (pre : String) :
    ∀ (n : Nat) (doc : List GenId), doc.Nodup → (panelIdLoop pre n doc).Nodup
  | 0, _, h => h
  | n + 1, doc, h =>
      panelIdLoop_nodup pre n _ (List.nodup_cons.mpr ⟨probe_not_mem doc pre 1, h⟩)

/-- C8: generated identifiers stay unique document-wide — starting from
any document whose ids are distinct, initializing two independent
accordion groups (any sizes, any id prefixes, even identical ones)
leaves every id in the document distinct, because each assignment
probes past every taken id before writing. -/
theorem C8_two_group_init_ids_nodup (preTA prePA preTB prePB : String) (nA nB : Nat)
    (doc : List GenId) (h : doc.Nodup) :
    (accordionInitIds preTB prePB nB (accordionInitIds preTA prePA nA doc)).Nodup := by
  unfold accordionInitIds
  apply panelIdLoop_nodup
  apply triggerIdLoop_nodup
  apply panelIdLoop_nodup
  apply triggerIdLoop_nodup
  exact h

/-- C8, witness: two groups of two pairs each, sharing the same
`prefixId` and even the same random token, on an initially empty
document. -/
theorem C8_two_group_init_ids_nodup_witness :
    ([] : List GenId).Nodup ∧
    (accordionInitIds "accordion-k3j9" "accordion-k3j9-panel" 2
        (accordionInitIds "accordion-k3j9" "accordion-k3j9-panel" 2 [])).Nodup :=
  ⟨by decide, C8_two_group_init_ids_nodup "accordion-k3j9" "accordion-k3j9-panel"
    "accordion-k3j9" "accordion-k3j9-panel" 2 2 [] (by decide)⟩

/-- C9: the claim asserts `Toggle.destroy` detaches every listener
`init` attached.  The code refutes it: with `closeOnEscPress` set (and
no `onClick`), `init` attaches the click, blur and window Escape
listeners, but `destroy` leaves the anonymous Escape closure attached —
and with `onClick` configured, `destroy` removes only the never-attached
raw callback and leaves all three attached listeners in place. -/
theorem C9_escape_listener_survives_destroy :
    toggleDestroy ⟨false, true, true⟩ (toggleInit ⟨false, true, true⟩ []) =
      [ToggleListener.windowKeydownEscape] ∧
    toggleDestroy ⟨true, false, true⟩ (toggleInit ⟨true, false, true⟩ []) =
      [ToggleListener.clickHandleClick, ToggleListener.clickOnClickBound,
        ToggleListener.windowKeydownEscape] := by decide

/-- No intervening open or close touches the pending timer list. -/
theorem applyTogs_timers :
    ∀ (acts : List TogAction) (s : TogState), (applyTogs acts s).timers = s.timers
  | [], _ => rfl
  | a :: acts, s => by
      have h1 : applyTogs (a :: acts) s = applyTogs acts (applyTog a s) := by
        rw [applyTogs, applyTogs, List.foldl_cons]
      have h2 : (applyTog a s).timers = s.timers := by cases a <;> rfl
      rw [h1, applyTogs_timers acts (applyTog a s), h2]

/-- Firing a pending timer closes the disclosure regardless of the rest
of the state. -/
theorem blurTimerFire_closes (s : TogState) (h : s.timers ≠ []) :
    (blurTimerFire s).ariaHidden = some true ∧ (blurTimerFire s).ariaExpanded = some false := by
  rcases s with ⟨ah, ae, ts⟩
  cases ts with
  | nil => exact absurd rfl h
  | cons t ts => exact ⟨rfl, rfl⟩

/-- C10: once `handleBlur` runs, its 200 ms timer stays pending through
any interleaving of `open`/`close` calls (nothing cancels it and
nothing re-checks state at fire time), and when it fires it sets the
target's `aria-hidden` to `'true'` and the trigger's `aria-expanded`
to `'false'` unconditionally — an intervening `open()` does not prevent
the close. -/
theorem C10_blur_timer_closes_unconditionally (s : TogState) (acts : List TogAction) :
    (applyTogs acts (togHandleBlur s)).timers = s.timers ++ [blurDelayMs] ∧
    blurDelayMs ∈ (applyTogs acts (togHandleBlur s)).timers ∧
    (blurTimerFire (applyTogs acts (togHandleBlur s))).ariaHidden = some true ∧
    (blurTimerFire (applyTogs acts (togHandleBlur s))).ariaExpanded = some false := by
  have ht : (applyTogs acts (togHandleBlur s)).timers = s.timers ++ [blurDelayMs] :=
    applyTogs_timers acts (togHandleBlur s)
  have hne : (applyTogs acts (togHandleBlur s)).timers ≠ [] := by
    rw [ht]
    simp
  have hf := blurTimerFire_closes _ hne
  refine ⟨ht, ?_, hf.1, hf.2⟩
  rw [ht]
  simp

end A11y


